import Mathlib

/-
  Verification development for the tsi-json repository.

  Shallow embedding of the FalAI video-generation service
  (api/services/falaiService.js), the FalAI route status mapping
  (api/routes/generateVideosFalAI.js), the server health endpoint and
  error-handling middleware (server.js), and — modelled from the spec,
  since the generate route file is not part of the provided sources —
  the text pipeline's script validation.

  JavaScript strings are modelled as Lean strings (lists of characters);
  JavaScript numbers that carry money amounts are modelled as exact
  rationals (the source rounds cent amounts with Math.round(x*100)/100,
  which is the identity on the exact values that arise here).
  Absent object fields are modelled with Option; dynamically typed field
  values that the source either interpolates into template literals or
  treats as objects are modelled with the small sum type JsVal.
-/

/-! ## JavaScript string and number primitives -/

/-- The ECMAScript whitespace class matched by the regular expression
class backslash-s (space, tab, line terminators, and the Unicode space
separators). -/
def isJsWs (c : Char) : Bool :=
  c = ' ' || c = '\t' || c = '\n' || c = '\r' || c = '\x0b' || c = '\x0c' ||
  c = '\u00a0' || c = '\u1680' || ('\u2000' ≤ c && c ≤ '\u200a') ||
  c = '\u2028' || c = '\u2029' || c = '\u202f' || c = '\u205f' ||
  c = '\u3000' || c = '\ufeff'

/-- Global replacement of every maximal run of whitespace by a single
space, as performed by replace with the whitespace-run pattern and a
single-space replacement.  The boolean records whether the previously
emitted character was the space standing for a run still in progress. -/
def collapseWsAux : Bool → List Char → List Char
  | _, [] => []
  | prevWs, c :: cs =>
    if isJsWs c then
      if prevWs then collapseWsAux true cs
      else ' ' :: collapseWsAux true cs
    else c :: collapseWsAux false cs

/-- JavaScript String.prototype.trim on the character list: whitespace is
removed from both ends. -/
def jsTrimList (cs : List Char) : List Char :=
  ((cs.dropWhile isJsWs).reverse.dropWhile isJsWs).reverse

/-- The final clean-up applied to every generated prompt:
trim, collapse whitespace runs to single spaces, truncate to 1000
characters (substring 0 1000). -/
def jsNormalize (s : String) : String :=
  String.mk ((collapseWsAux false (jsTrimList s.data)).take 1000)

/-- JavaScript or-default on an optional string: the default is used when
the value is absent or empty (the empty string is falsy). -/
def jsOrString (v : Option String) (d : String) : String :=
  match v with
  | some s => if s = "" then d else s
  | none => d

/-- JavaScript or-default on an optional natural number: the default is
used when the value is absent or zero (the number 0 is falsy). -/
def jsOrNum (v : Option Nat) (d : Nat) : Nat :=
  match v with
  | some n => if n = 0 then d else n
  | none => d

/-- Case-sensitive substring test, String.prototype.includes. -/
def jsIncludes (s pat : String) : Bool :=
  decide (List.IsInfix pat.data s.data)

/-- The numeric value of a list of decimal digit characters, or none when
the list is empty (parseInt of an empty string is NaN). -/
def digitsToNat (cs : List Char) : Option Nat :=
  match cs with
  | [] => none
  | _ => some (cs.foldl (fun acc c => 10 * acc + (c.toNat - 48)) 0)

/-- The integer parsed from the decimal digits of a string after every
non-digit has been deleted, none when there are no digits. -/
def digitsVal (s : String) : Option Nat :=
  digitsToNat (s.data.filter Char.isDigit)

/-- Math.round on an exact rational: floor of the value plus one half. -/
def mathRound (q : ℚ) : ℤ :=
  ⌊q + 1/2⌋

/-- Rounding to cents, Math.round(q * 100) / 100. -/
def roundCents (q : ℚ) : ℚ :=
  ((mathRound (q * 100) : ℤ) : ℚ) / 100

/-! ## Dynamically typed field values -/

/-- A JavaScript value as it may appear in a segment field: a string, a
plain object (modelled by its string-keyed string-valued entries), or
undefined (an absent field). -/
inductive JsVal where
  | str (s : String)
  | obj (entries : List (String × String))
  | undef
deriving DecidableEq, Repr

/-- JavaScript truthiness of a field value: the empty string and
undefined are falsy, every other string and every object is truthy. -/
def jsTruthy : JsVal → Bool
  | JsVal.str s => s ≠ ""
  | JsVal.obj _ => true
  | JsVal.undef => false

/-- Template-literal coercion of a field value to a string: objects print
as the object placeholder and undefined prints as the word undefined. -/
def jsValString : JsVal → String
  | JsVal.str s => s
  | JsVal.obj _ => "[object Object]"
  | JsVal.undef => "undefined"

/-- JavaScript or-default on a field value followed by string coercion. -/
def jsValOr (v : JsVal) (d : String) : String :=
  if jsTruthy v then jsValString v else d

/-- A list of index-value pairs starting at a given index. -/
def idxFrom (n : Nat) : List α → List (Nat × α)
  | [] => []
  | a :: as => (n, a) :: idxFrom (n + 1) as

/-- Object.entries of a field value defaulted to the empty object:
entries of an object are its pairs, entries of a string are its
index-character pairs, entries of the empty object are empty (undefined
and the empty string are falsy, so the or-default empty object is
used for them). -/
def jsEntries : JsVal → List (String × String)
  | JsVal.obj es => es
  | JsVal.str s =>
    if s = "" then []
    else (idxFrom 0 s.data).map (fun p => (toString p.1, String.singleton p.2))
  | JsVal.undef => []

/-! ## Segment data model (caller-supplied JSON, fields optional) -/

structure SegmentInfo where
  segment_number : Option Nat := none
  continuity_markers : JsVal := JsVal.undef
deriving DecidableEq, Repr

structure CharacterDescription where
  current_state : JsVal := JsVal.undef
deriving DecidableEq, Repr

structure ActionTimeline where
  dialogue : JsVal := JsVal.undef
  synchronized_actions : JsVal := JsVal.undef
  micro_expressions : JsVal := JsVal.undef
deriving DecidableEq, Repr

structure SceneContinuity where
  camera_position : JsVal := JsVal.undef
  props_in_frame : JsVal := JsVal.undef
deriving DecidableEq, Repr

structure Segment where
  segment_info : Option SegmentInfo := none
  character_description : Option CharacterDescription := none
  action_timeline : Option ActionTimeline := none
  scene_continuity : Option SceneContinuity := none
deriving DecidableEq, Repr

/-- The optionally chained segment number,
segment.segment_info?.segment_number. -/
def segInfoNumber (segment : Segment) : Option Nat :=
  segment.segment_info.bind SegmentInfo.segment_number

/-- A segment counts as enhanced when its optionally chained
continuity_markers field is truthy. -/
def isEnhanced (segment : Segment) : Bool :=
  match segment.segment_info with
  | some info => jsTruthy info.continuity_markers
  | none => false

/-! ## Generation options -/

/-- The cost- and payload-relevant keys of options.falaiOptions, spread
last into the request payload and hence overriding the defaulted keys
when present.  Keys that only pass through to the provider payload are
not modelled. -/
structure FalaiOverrides where
  duration : Option String := none
  generate_audio : Option Bool := none
  aspect_ratio : Option String := none
  resolution : Option String := none
deriving DecidableEq, Repr

/-- The options object accepted by the service functions.  generateAudio
is compared against false with strict inequality in the source, so only
an explicit false turns audio off. -/
structure FalOptions where
  aspectRatio : Option String := none
  duration : Option String := none
  resolution : Option String := none
  generateAudio : Option Bool := none
  falaiOptions : FalaiOverrides := {}
deriving DecidableEq, Repr

/-- The request duration: options.duration defaulted to the string 8s,
overridden by a duration key in falaiOptions. -/
def effectiveDuration (options : FalOptions) : String :=
  match options.falaiOptions.duration with
  | some d => d
  | none => jsOrString options.duration ("8s")

/-- The request generate_audio flag: options.generateAudio strictly
different from false, overridden by a generate_audio key in
falaiOptions. -/
def effectiveAudio (options : FalOptions) : Bool :=
  match options.falaiOptions.generate_audio with
  | some b => b
  | none => decide (options.generateAudio ≠ some false)

/-- The request aspect_ratio: options.aspectRatio defaulted, overridden
by an aspect_ratio key in falaiOptions. -/
def effectiveAspectRatio (options : FalOptions) : String :=
  match options.falaiOptions.aspect_ratio with
  | some a => a
  | none => jsOrString options.aspectRatio ("16:9")

/-- The request resolution: options.resolution defaulted, overridden by a
resolution key in falaiOptions. -/
def effectiveResolution (options : FalOptions) : String :=
  match options.falaiOptions.resolution with
  | some r => r
  | none => jsOrString options.resolution ("720p")

/-! ## createVideoPrompt -/

/-- Error message of the TypeError raised by reading current_state on an
undefined character_description in the enhanced template. -/
def typeErrCurrentState : String :=
  "Cannot read properties of undefined (reading 'current_state')"

/-- Error message of the TypeError raised by reading dialogue on an
undefined action_timeline in the enhanced template. -/
def typeErrDialogue : String :=
  "Cannot read properties of undefined (reading 'dialogue')"

/-- Error message of the TypeError raised by reading camera_position on
an undefined scene_continuity in the enhanced template. -/
def typeErrCameraPosition : String :=
  "Cannot read properties of undefined (reading 'camera_position')"

/-- The comma-space-joined time-colon-action rendering of the
synchronized actions in the enhanced template. -/
def joinedActions (v : JsVal) : String :=
  String.intercalate (", ") ((jsEntries v).map (fun p => p.1 ++ ": " ++ p.2))

/-- The enhanced-format template literal (continuity markers present). -/
def enhancedTemplate (cd : CharacterDescription) (tl : ActionTimeline)
    (sc : SceneContinuity) : String :=
  "UGC style video: " ++ jsValString cd.current_state ++ ". \n      \nDialogue: \"" ++
  jsValString tl.dialogue ++ "\"\n\nActions: " ++
  joinedActions tl.synchronized_actions ++ "\n\nCamera: " ++
  jsValString sc.camera_position ++ "\nEnvironment: " ++
  jsValString sc.props_in_frame ++
  "\n\nStyle: Authentic user-generated content, handheld camera, natural lighting, casual and relatable, " ++
  jsValOr tl.micro_expressions ("natural facial expressions")

/-- The optionally chained current_state of a segment. -/
def optCurrentState (segment : Segment) : JsVal :=
  match segment.character_description with
  | some cd => cd.current_state
  | none => JsVal.undef

/-- The optionally chained dialogue of a segment. -/
def optDialogue (segment : Segment) : JsVal :=
  match segment.action_timeline with
  | some tl => tl.dialogue
  | none => JsVal.undef

/-- The optionally chained synchronized_actions of a segment. -/
def optSyncActions (segment : Segment) : JsVal :=
  match segment.action_timeline with
  | some tl => tl.synchronized_actions
  | none => JsVal.undef

/-- The optionally chained camera_position of a segment. -/
def optCameraPosition (segment : Segment) : JsVal :=
  match segment.scene_continuity with
  | some sc => sc.camera_position
  | none => JsVal.undef

/-- The standard-format template literal (no continuity markers); every
missing optional field falls back to fixed default text. -/
def standardTemplate (segment : Segment) : String :=
  "UGC style video: " ++ jsValOr (optCurrentState segment) "Natural presenter" ++
  ".\n      \nDialogue: \"" ++ jsValOr (optDialogue segment) "" ++
  "\"\n\nActions: " ++ jsValOr (optSyncActions segment) "Natural gestures while speaking" ++
  "\n\nCamera: " ++ jsValOr (optCameraPosition segment) "Medium shot, eye level" ++
  "\n\nStyle: Authentic user-generated content, handheld camera, natural lighting, casual and relatable"

/-- createVideoPrompt: selects the enhanced or standard template and
normalizes the result (trim, collapse whitespace, truncate to 1000
characters).  In the enhanced branch the source dereferences
character_description, action_timeline and scene_continuity without
optional chaining, so a missing one raises a TypeError (modelled as the
error case, in the evaluation order of the template literal); the
options parameter is accepted but unused, as in the source. -/
def createVideoPrompt (segment : Segment) (options : FalOptions) : Except String String :=
  if isEnhanced segment then
    match segment.character_description with
    | none => Except.error typeErrCurrentState
    | some cd =>
      match segment.action_timeline with
      | none => Except.error typeErrDialogue
      | some tl =>
        match segment.scene_continuity with
        | none => Except.error typeErrCameraPosition
        | some sc => Except.ok (jsNormalize (enhancedTemplate cd tl sc))
  else
    Except.ok (jsNormalize (standardTemplate segment))

/-! ## calculateCost -/

/-- The seconds value used by calculateCost: parseInt of the digits of
the duration string, with 8 substituted when the parse yields NaN (no
digits) or the falsy number 0. -/
def jsParseSeconds (duration : String) : Nat :=
  match digitsVal duration with
  | none => 8
  | some n => if n = 0 then 8 else n

/-- calculateCost: seconds times the per-second rate, 0.40 dollars with
audio and 0.20 dollars without. -/
def calculateCost (duration : String) (generateAudio : Bool) : ℚ :=
  (jsParseSeconds duration : ℚ) * (if generateAudio then (0.40 : ℚ) else (0.20 : ℚ))

/-! ## generateVideoFromSegment -/

/-- The transport-level result of one provider HTTP call: a 2xx response
(with the optionally present video url, status and request_id fields of
the response body), a non-2xx HTTP status with the optionally present
error field of the error body, a timeout (ECONNABORTED), a network
failure (request sent, no response), or another runtime error. -/
inductive CallOutcome where
  | ok (videoUrl : Option String) (status : Option String) (requestId : Option String)
  | httpError (status : Nat) (dataError : Option String)
  | timeout
  | networkError
  | jsError (msg : String)
deriving DecidableEq, Repr

/-- The message of the invalid-API-key error thrown on HTTP 401. -/
def msgInvalidKey : String :=
  "Invalid API key. Please check your FALAI_API_KEY"

/-- The message of the insufficient-credits error thrown on HTTP 402. -/
def msgCredits : String :=
  "Insufficient credits. Please add funds to your FalAI account"

/-- The message of the rate-limit error thrown on HTTP 429. -/
def msgRateLimit : String :=
  "Rate limit exceeded. Please wait and try again"

/-- The message of the generic service error thrown on HTTP 500. -/
def msgService500 : String :=
  "FalAI service error. Please try again later"

/-- The message of the timeout error thrown on ECONNABORTED. -/
def msgTimeout : String :=
  "Request timeout. Video generation is taking longer than expected"

/-- The message of the network error thrown when no response arrived. -/
def msgNetwork : String :=
  "Network error. Please check your internet connection"

/-- The error message thrown by generateVideoFromSegment for each failing
transport outcome, mirroring the status switch of the source; the ok
outcome never reaches this mapping (mapped to the empty string). -/
def providerErrorMessage : CallOutcome → String
  | CallOutcome.httpError status dataError =>
    if status = 400 then ("Invalid request: ") ++ jsOrString dataError ("Bad request parameters")
    else if status = 401 then msgInvalidKey
    else if status = 402 then msgCredits
    else if status = 429 then msgRateLimit
    else if status = 500 then msgService500
    else ("FalAI API error (") ++ toString status ++ ("): ") ++ jsOrString dataError ("Unknown error")
  | CallOutcome.timeout => msgTimeout
  | CallOutcome.networkError => msgNetwork
  | CallOutcome.jsError m => "FalAI service error: " ++ m
  | CallOutcome.ok _ _ _ => ""

/-- The metadata record attached to a successful per-segment result. -/
structure VideoMetadata where
  prompt : String
  aspectRatio : String
  resolution : String
  generateAudio : Bool
deriving DecidableEq, Repr

/-- One per-segment result entry of the batch: the success record built
from the provider response, or the failure record pushed by the batch
loop.  Fields absent in a record are none. -/
structure VideoResult where
  success : Bool
  segmentNumber : Option Nat := none
  videoUrl : Option String := none
  status : Option String := none
  duration : Option String := none
  cost : Option ℚ := none
  requestId : Option String := none
  metadata : Option VideoMetadata := none
  error : Option String := none
deriving DecidableEq, Repr

/-- generateVideoFromSegment on an initialized service: builds the
prompt (a TypeError there escapes the catch block, because the catch
block recomputes the prompt for logging), issues the provider call, and
either returns the success record or throws the normalized error message
of the failing outcome. -/
def generateVideoFromSegment (segment : Segment) (options : FalOptions)
    (outcome : CallOutcome) : Except String VideoResult :=
  match createVideoPrompt segment options with
  | Except.error m => Except.error m
  | Except.ok prompt =>
    match outcome with
    | CallOutcome.ok videoUrl status requestId =>
      Except.ok
        { success := true
          segmentNumber := segInfoNumber segment
          videoUrl := videoUrl
          status := some (jsOrString status ("completed"))
          duration := some (effectiveDuration options)
          cost := some (calculateCost (effectiveDuration options) (effectiveAudio options))
          requestId := requestId
          metadata := some
            { prompt := prompt
              aspectRatio := effectiveAspectRatio options
              resolution := effectiveResolution options
              generateAudio := effectiveAudio options }
          error := none }
    | failure => Except.error (providerErrorMessage failure)

/-! ## generateVideosForAllSegments -/

/-- Whether the prompt construction for a segment succeeds, i.e. whether
the per-segment provider call is reached at all. -/
def promptOk (segment : Segment) (options : FalOptions) : Bool :=
  match createVideoPrompt segment options with
  | Except.ok _ => true
  | Except.error _ => false

/-- Whether the whole per-segment generation at index i succeeds. -/
def callOk (options : FalOptions) (oracle : Nat → CallOutcome) (i : Nat)
    (segment : Segment) : Bool :=
  match generateVideoFromSegment segment options (oracle i) with
  | Except.ok _ => true
  | Except.error _ => false

/-- The failure entry pushed into the results array for segment index i
(0-based): success false, the segment number defaulted to i+1 when the
optionally chained segment number is falsy, and the error message. -/
def failResult (segment : Segment) (i : Nat) (m : String) : VideoResult :=
  { success := false
    segmentNumber := some (jsOrNum (segInfoNumber segment) (i + 1))
    error := some m }

/-- The result entry produced for segment index i: the success record or
the failure entry. -/
def perSegmentResult (options : FalOptions) (oracle : Nat → CallOutcome)
    (i : Nat) (segment : Segment) : VideoResult :=
  match generateVideoFromSegment segment options (oracle i) with
  | Except.ok r => r
  | Except.error m => failResult segment i m

/-- One entry of the errors array: the 1-based index of the failed
segment and the error message. -/
structure BatchError where
  segmentIndex : Nat
  error : String
deriving DecidableEq, Repr

/-- The error entry produced for segment index i when its generation
fails, none when it succeeds. -/
def errEntryFor (options : FalOptions) (oracle : Nat → CallOutcome)
    (i : Nat) (segment : Segment) : Option BatchError :=
  match generateVideoFromSegment segment options (oracle i) with
  | Except.ok _ => none
  | Except.error m => some { segmentIndex := i + 1, error := m }

/-- An observable step of the batch loop: an issued provider call for a
0-based segment index, or an awaited delay in milliseconds. -/
inductive Event where
  | call (i : Nat)
  | delay (ms : Nat)
deriving DecidableEq, Repr

/-- The index of a call event. -/
def callIdx : Event → Option Nat
  | Event.call i => some i
  | Event.delay _ => none

/-- The accumulated state of the batch loop: the results array, the
errors array, and the trace of issued calls and awaited delays. -/
structure FanoutState where
  results : List VideoResult
  errors : List BatchError
  events : List Event
deriving DecidableEq, Repr

/-- The sequential batch loop of generateVideosForAllSegments, from
segment index i on: each segment is processed in order; a success
appends its record and, when further segments remain, awaits a fixed
1000 ms delay; a failure appends the failure entry to both arrays and
continues immediately with the next segment.  A provider call event is
recorded exactly when the prompt construction succeeds (otherwise the
TypeError is thrown before the request is issued). -/
def runFanout (options : FalOptions) (oracle : Nat → CallOutcome) :
    Nat → List Segment → FanoutState
  | _, [] => { results := [], errors := [], events := [] }
  | i, segment :: rest =>
    let tail := runFanout options oracle (i + 1) rest
    let callEv : List Event := if promptOk segment options then [Event.call i] else []
    match generateVideoFromSegment segment options (oracle i) with
    | Except.ok r =>
      { results := r :: tail.results
        errors := tail.errors
        events := callEv ++ (if rest.isEmpty then [] else [Event.delay 1000]) ++ tail.events }
    | Except.error m =>
      { results := failResult segment i m :: tail.results
        errors := { segmentIndex := i + 1, error := m } :: tail.errors
        events := callEv ++ tail.events }

/-- The batch result returned by generateVideosForAllSegments. -/
structure BatchResult where
  success : Bool
  videos : List VideoResult
  totalSegments : Nat
  successCount : Nat
  failureCount : Nat
  totalCost : ℚ
  errors : Option (List BatchError)
deriving DecidableEq, Repr

/-- generateVideosForAllSegments on an initialized service: runs the
sequential loop and assembles the summary.  The total cost sums the cost
field over the result entries that succeeded and carry a truthy (nonzero)
cost, then rounds to cents; the errors array is present only when
non-empty. -/
def generateVideosForAllSegments (segments : List Segment)
    (options : FalOptions) (oracle : Nat → CallOutcome) : BatchResult :=
  let st := runFanout options oracle 0 segments
  let successCount := (st.results.filter (fun r => r.success)).length
  let costSum :=
    ((st.results.filter (fun r => r.success &&
        (match r.cost with
         | some c => decide (c ≠ 0)
         | none => false))).map (fun r => r.cost.getD 0)).sum
  { success := decide (0 < successCount)
    videos := st.results
    totalSegments := segments.length
    successCount := successCount
    failureCount := st.errors.length
    totalCost := roundCents costSum
    errors := if 0 < st.errors.length then some st.errors else none }

/-- The trace of provider calls and delays of one batch run. -/
def generateVideosTrace (segments : List Segment) (options : FalOptions)
    (oracle : Nat → CallOutcome) : List Event :=
  (runFanout options oracle 0 segments).events

/-- The call schedule of the video fan-out as described by the amended
claim C8: for each segment in order, one provider call when its prompt
construction succeeds, followed by a fixed 1000 ms delay exactly when the
call succeeded and further segments remain; a failed or skipped call is
followed by the next call with no delay. -/
def fanoutSchedule (options : FalOptions) (oracle : Nat → CallOutcome) :
    Nat → List Segment → List Event
  | _, [] => []
  | i, segment :: rest =>
    (if promptOk segment options then [Event.call i] else []) ++
    (if callOk options oracle i segment && !rest.isEmpty then [Event.delay 1000] else []) ++
    fanoutSchedule options oracle (i + 1) rest

/-! ## Route status mapping (api/routes/generateVideosFalAI.js) -/

/-- The HTTP status chosen by the generate-videos-falai route for an
error message: 401 for messages containing the API-key fragment, 402 for
credits, 429 for the lowercase rate-limit fragment, 400 for the
invalid-request fragment, 500 otherwise.  The substring tests are
case-sensitive. -/
def statusCodeFor (message : String) : Nat :=
  if jsIncludes message ("API key") then 401
  else if jsIncludes message ("credits") then 402
  else if jsIncludes message ("rate limit") then 429
  else if jsIncludes message ("Invalid request") then 400
  else 500

/-! ## Health endpoint (server.js) -/

/-- The environment variables read by the health endpoint and the error
middleware; none models an unset variable. -/
structure Env where
  OPENAI_API_KEY : Option String := none
  GOOGLE_GEMINI_API_KEY : Option String := none
  GOOGLE_APPLICATION_CREDENTIALS : Option String := none
  KIEAI_API_KEY : Option String := none
  NODE_ENV : Option String := none
deriving DecidableEq, Repr

/-- Double-negation truthiness of an environment variable: true exactly
when the variable is set to a non-empty string. -/
def envTruthy (v : Option String) : Bool :=
  match v with
  | some s => s ≠ ""
  | none => false

/-- The per-provider credential flags of the health response. -/
structure ApisStatus where
  openai : Bool
  gemini : Bool
  vertex : Bool
  kieai : Bool
deriving DecidableEq, Repr

/-- The apis object of the GET health response. -/
def healthApis (env : Env) : ApisStatus :=
  { openai := envTruthy env.OPENAI_API_KEY
    gemini := envTruthy env.GOOGLE_GEMINI_API_KEY
    vertex := envTruthy env.GOOGLE_APPLICATION_CREDENTIALS
    kieai := envTruthy env.KIEAI_API_KEY }

/-! ## Error-handling middleware (server.js) -/

/-- The fields of a JavaScript Error reaching the middleware, plus the
optional status attached by upstream handlers. -/
structure JsError where
  message : String
  stack : String
  status : Option Nat := none
deriving DecidableEq, Repr

/-- The request context echoed into a development-mode response. -/
structure ReqInfo where
  method : String
  url : String
deriving DecidableEq, Repr

/-- The JSON body produced by the error middleware. -/
structure ErrorResponse where
  error : String
  errorId : String
  message : String
  stack : Option String := none
  request : Option ReqInfo := none
deriving DecidableEq, Repr

/-- The generic production-mode message. -/
def msgGeneric : String :=
  "Something went wrong"

/-- The error-handling middleware: the response status is the error's
own status defaulted to 500 (0 is falsy), and the body carries the
correlation identifier (computed by the caller from Math.random, hence a
parameter here), the error message and stack in development mode, and
the fixed generic message with no stack otherwise. -/
def errorMiddleware (err : JsError) (errorId : String) (nodeEnv : Option String)
    (req : ReqInfo) : Nat × ErrorResponse :=
  let isDevelopment := nodeEnv = some ("development")
  (jsOrNum err.status 500,
   { error := "Internal server error"
     errorId := errorId
     message := if isDevelopment then err.message else msgGeneric
     stack := if isDevelopment then some err.stack else none
     request := if isDevelopment then some req else none })

/-! ## Script validation of the text pipeline (modelled from the spec) -/

/-- Modelled from the spec: the word chunking of the Segment Splitter
(api/services/openaiService.js is not among the provided sources); the
script's whitespace-separated words are grouped into bands of at most
twenty words. -/
def chunkWordsAux (acc : List String) (k : Nat) : List String → List (List String)
  | [] => if acc.isEmpty then [] else [acc.reverse]
  | w :: ws =>
    if k = 0 then acc.reverse :: chunkWordsAux [w] 19 ws
    else chunkWordsAux (w :: acc) (k - 1) ws

/-- Modelled from the spec: splitting a script into word-band segments. -/
def splitScript (script : String) : List (List String) :=
  chunkWordsAux [] 20 (script.splitOn (" "))

/-- Modelled from the spec: the generation pipeline of the generate
route (api/routes/generate.js is not among the provided sources).  A
script shorter than 50 characters is rejected with a ValidationError
before any provider call; otherwise the script is split and one base
call plus one call per segment are issued.  The second component counts
the provider calls issued. -/
def runSegmentPipeline (script : String) : Except String (List (List String)) × Nat :=
  if script.length < 50 then (Except.error ("ValidationError"), 0)
  else
    let segs := splitScript script
    (Except.ok segs, 1 + segs.length)

/-! ## Predicates used by the normalization claims -/

/-- A character is normalized when it is not whitespace or is exactly the
single space character. -/
def wsNormalizedChar (c : Char) : Bool :=
  !(isJsWs c) || (c == ' ')

/-- No two adjacent characters of the list are both whitespace: every
internal whitespace run has length one. -/
def noWsRun : List Char → Bool
  | c₁ :: c₂ :: rest => (!(isJsWs c₁ && isJsWs c₂)) && noWsRun (c₂ :: rest)
  | _ => true

/-! ## Concrete inputs used by witnesses and counterexamples -/

/-- A segment with every optional field absent: standard-format prompt
built entirely from default text. -/
def emptySegment : Segment := {}

/-- An options object with every field absent. -/
def noOptions : FalOptions := {}

/-- An enhanced-marked segment (truthy continuity_markers) whose
character_description is missing, so prompt construction raises. -/
def enhancedBrokenSegment : Segment :=
  { segment_info := some { continuity_markers := JsVal.str ("m") } }

/-- A provider oracle failing every call with HTTP 429. -/
def oracleAll429 : Nat → CallOutcome :=
  fun _ => CallOutcome.httpError 429 none

/-- A provider oracle failing only the first call with HTTP 429. -/
def oracleFirst429 : Nat → CallOutcome :=
  fun i => if i = 0 then CallOutcome.httpError 429 none
           else CallOutcome.ok none none none

/-- A provider oracle failing only the second call with HTTP 429. -/
def oracleSecond429 : Nat → CallOutcome :=
  fun i => if i = 1 then CallOutcome.httpError 429 none
           else CallOutcome.ok none none none

/-- The segment list of the C1 witness: two default segments. -/
def c1Segments : List Segment := [emptySegment, emptySegment]

/-- The segment list of the C2 witness: three default segments. -/
def c2Segments : List Segment := [emptySegment, emptySegment, emptySegment]

/-- The segment list of the C8 counterexample: two default segments. -/
def c8Segments : List Segment := [emptySegment, emptySegment]

/-- The normalized default standard prompt of a field-free segment. -/
def defaultStandardPrompt : String :=
  "UGC style video: Natural presenter. Dialogue: \"\" Actions: Natural gestures while speaking Camera: Medium shot, eye level Style: Authentic user-generated content, handheld camera, natural lighting, casual and relatable"

/-- A duration string whose digits parse to the falsy number 0. -/
def zeroDuration : String := "0s"

/-- The common duration string of eight seconds. -/
def duration8s : String := "8s"

/-- An environment whose text credential is set to the empty string. -/
def envEmptyKey : Env :=
  { OPENAI_API_KEY := some ("") }

/-- An environment whose text credential is set to a non-empty value. -/
def envWithKey : Env :=
  { OPENAI_API_KEY := some ("sk-test") }

/-- A sample error reaching the middleware. -/
def sampleError : JsError :=
  { message := "segments array is required", stack := "Error: segments array is required\n    at handler" }

/-- A sample request context. -/
def sampleReq : ReqInfo :=
  { method := "POST", url := "/api/generate-videos-falai" }

/-- A sample correlation identifier as produced from Math.random. -/
def sampleErrorId : String := "k3j9qx"

/-- A script shorter than 50 characters. -/
def shortScript : String := "Buy this product now!"

/-! ## Whitespace-normalization lemmas -/

theorem collapseWsAux_all_wsNormalized :
    ∀ (l : List Char) (b : Bool), ((collapseWsAux b l).all wsNormalizedChar) = true := by
  intro l
  induction l with
  | nil => intro b; rfl
  | cons c cs ih =>
    intro b
    by_cases hc : isJsWs c = true
    · cases b <;> simp [collapseWsAux, hc, wsNormalizedChar, ih]
    · simp only [Bool.not_eq_true] at hc
      simp [collapseWsAux, hc, wsNormalizedChar, ih]

theorem collapseWsAux_true_head :
    ∀ (l : List Char) (c : Char), (collapseWsAux true l).head? = some c → isJsWs c = false := by
  intro l
  induction l with
  | nil => intro c h; simp [collapseWsAux] at h
  | cons a as ih =>
    intro c h
    by_cases ha : isJsWs a = true
    · rw [show collapseWsAux true (a :: as) = collapseWsAux true as by
        simp [collapseWsAux, ha]] at h
      exact ih c h
    · simp only [Bool.not_eq_true] at ha
      rw [show collapseWsAux true (a :: as) = a :: collapseWsAux false as by
        simp [collapseWsAux, ha]] at h
      simp only [List.head?_cons, Option.some.injEq] at h
      rw [← h]
      exact ha

theorem noWsRun_cons_of (a : Char) (l : List Char) (hl : noWsRun l = true)
    (hhead : ∀ d, l.head? = some d → (isJsWs a && isJsWs d) = false) :
    noWsRun (a :: l) = true := by
  cases l with
  | nil => rfl
  | cons d rest => simp [noWsRun, hl, hhead d rfl]

theorem noWsRun_collapseWsAux :
    ∀ (l : List Char) (b : Bool), noWsRun (collapseWsAux b l) = true := by
  intro l
  induction l with
  | nil => intro b; rfl
  | cons c cs ih =>
    intro b
    by_cases hc : isJsWs c = true
    · cases b with
      | true => simpa [collapseWsAux, hc] using ih true
      | false =>
        rw [show collapseWsAux false (c :: cs) = ' ' :: collapseWsAux true cs by
          simp [collapseWsAux, hc]]
        refine noWsRun_cons_of _ _ (ih true) ?_
        intro d hd
        simp [collapseWsAux_true_head cs d hd]
    · simp only [Bool.not_eq_true] at hc
      rw [show collapseWsAux b (c :: cs) = c :: collapseWsAux false cs by
        simp [collapseWsAux, hc]]
      refine noWsRun_cons_of _ _ (ih false) ?_
      intro d hd
      simp [hc]

theorem noWsRun_take :
    ∀ (l : List Char) (n : Nat), noWsRun l = true → noWsRun (l.take n) = true := by
  intro l
  induction l with
  | nil => intro n _; cases n <;> rfl
  | cons a as ih =>
    intro n h
    cases n with
    | zero => rfl
    | succ k =>
      cases as with
      | nil => cases k <;> rfl
      | cons b bs =>
        have h' : ((!(isJsWs a && isJsWs b)) && noWsRun (b :: bs)) = true := h
        rw [Bool.and_eq_true] at h'
        obtain ⟨hab, hrest⟩ := h'
        cases k with
        | zero => rfl
        | succ k2 =>
          have htail : noWsRun (b :: bs.take k2) = true := ih (k2 + 1) hrest
          show ((!(isJsWs a && isJsWs b)) && noWsRun (b :: bs.take k2)) = true
          rw [Bool.and_eq_true]
          exact ⟨hab, htail⟩

theorem all_take {p : Char → Bool} (l : List Char) (n : Nat) (h : l.all p = true) :
    (l.take n).all p = true := by
  rw [List.all_eq_true] at h ⊢
  intro x hx
  exact h x (List.take_subset n l hx)

theorem jsNormalize_length (s : String) : (jsNormalize s).length ≤ 1000 := by
  show (String.mk ((collapseWsAux false (jsTrimList s.data)).take 1000)).length ≤ 1000
  have : (String.mk ((collapseWsAux false (jsTrimList s.data)).take 1000)).length
      = ((collapseWsAux false (jsTrimList s.data)).take 1000).length := rfl
  rw [this, List.length_take]
  exact Nat.min_le_left _ _

theorem jsNormalize_noWsRun (s : String) : noWsRun (jsNormalize s).data = true := by
  show noWsRun ((collapseWsAux false (jsTrimList s.data)).take 1000) = true
  exact noWsRun_take _ 1000 (noWsRun_collapseWsAux (jsTrimList s.data) false)

theorem jsNormalize_all (s : String) : (jsNormalize s).data.all wsNormalizedChar = true := by
  show ((collapseWsAux false (jsTrimList s.data)).take 1000).all wsNormalizedChar = true
  exact all_take _ 1000 (collapseWsAux_all_wsNormalized (jsTrimList s.data) false)

/-- C10: whenever createVideoPrompt returns a value, that value is at
most 1000 characters long, contains no whitespace character other than
the single space, and contains no run of two adjacent whitespace
characters — every internal whitespace run of the raw template has been
collapsed to a single space.  (In the standard branch every missing
optional field was first replaced by fixed default text; in the enhanced
branch a missing sub-object makes the function raise instead of
returning.) -/
theorem createVideoPrompt_normalized (segment : Segment) (options : FalOptions)
    (p : String) (h : createVideoPrompt segment options = Except.ok p) :
    p.length ≤ 1000 ∧ noWsRun p.data = true ∧ p.data.all wsNormalizedChar = true := by
  have hp : ∃ s, p = jsNormalize s := by
    unfold createVideoPrompt at h
    by_cases he : isEnhanced segment = true
    · simp only [he, if_true] at h
      cases hcd : segment.character_description with
      | none => rw [hcd] at h; exact absurd h (by simp)
      | some cd =>
        rw [hcd] at h
        cases htl : segment.action_timeline with
        | none => rw [htl] at h; exact absurd h (by simp)
        | some tl =>
          rw [htl] at h
          cases hsc : segment.scene_continuity with
          | none => rw [hsc] at h; exact absurd h (by simp)
          | some sc =>
            rw [hsc] at h
            injection h with h
            exact ⟨_, h.symm⟩
    · simp only [Bool.not_eq_true] at he
      simp only [he, Bool.false_eq_true, if_false] at h
      injection h with h
      exact ⟨_, h.symm⟩
  obtain ⟨s, rfl⟩ := hp
  exact ⟨jsNormalize_length s, jsNormalize_noWsRun s, jsNormalize_all s⟩

set_option maxRecDepth 4000 in
/-- Witness for C10 at the concrete field-free segment, whose prompt is
the normalized default standard prompt. -/
theorem createVideoPrompt_normalized_witness :
    defaultStandardPrompt.length ≤ 1000 ∧
    noWsRun defaultStandardPrompt.data = true ∧
    defaultStandardPrompt.data.all wsNormalizedChar = true :=
  createVideoPrompt_normalized emptySegment noOptions defaultStandardPrompt (by rfl)

/-! ## C3: calculateCost -/

/-- Counterexample to C3 as stated: for the duration string 0s the
integer parsed from the digits is 0, so the claimed cost would be
0 times 0.40 = 0 dollars, but calculateCost substitutes the default of 8
seconds for the falsy parse result and returns 3.20 dollars. -/
theorem calculateCost_digits_counterexample :
    digitsVal zeroDuration = some 0 ∧
    calculateCost zeroDuration true ≠ (0 : ℚ) * (0.40 : ℚ) ∧
    calculateCost zeroDuration true = (16 : ℚ) / 5 := by
  have hcost : calculateCost zeroDuration true = (16 : ℚ) / 5 := by
    unfold calculateCost
    rw [show jsParseSeconds zeroDuration = 8 from rfl]
    norm_num
  refine ⟨rfl, ?_, hcost⟩
  rw [hcost]
  norm_num

/-- C3 amended: calculateCost is a deterministic function of the
duration string and the audio flag alone; it returns n times 0.40 with
audio and n times 0.20 without, where n is the integer parsed from the
digits of the duration string, except that 8 is substituted when the
string has no digits or the digits parse to 0. -/
theorem calculateCost_spec (duration : String) (generateAudio : Bool) :
    (∀ n : Nat, digitsVal duration = some n → 0 < n →
      calculateCost duration generateAudio =
        (n : ℚ) * (if generateAudio then (0.40 : ℚ) else (0.20 : ℚ))) ∧
    ((digitsVal duration = none ∨ digitsVal duration = some 0) →
      calculateCost duration generateAudio =
        (8 : ℚ) * (if generateAudio then (0.40 : ℚ) else (0.20 : ℚ))) := by
  constructor
  · intro n hn hpos
    unfold calculateCost jsParseSeconds
    rw [hn]
    have : ¬ n = 0 := Nat.pos_iff_ne_zero.mp hpos
    simp [this]
  · intro hd
    unfold calculateCost jsParseSeconds
    cases hd with
    | inl h => rw [h]; norm_num
    | inr h => rw [h]; norm_num

/-- Witness for the amended C3 at the duration string 8s with audio. -/
theorem calculateCost_spec_witness :
    calculateCost duration8s true = (8 : ℚ) * (if true then (0.40 : ℚ) else (0.20 : ℚ)) :=
  (calculateCost_spec duration8s true).1 8 (by decide) (by decide)

/-! ## C4: health endpoint credential flags -/

/-- Counterexample to C4 as stated: a variable that is present but set
to the empty string yields a false flag, so the flag is not the presence
of the variable. -/
theorem healthApis_presence_counterexample :
    envEmptyKey.OPENAI_API_KEY.isSome = true ∧
    (healthApis envEmptyKey).openai = false := by
  constructor <;> rfl

/-- C4 amended: for every environment, each credential flag of the
health response is true exactly when the corresponding variable is set
to a non-empty string (a variable set to the empty string counts as
absent); in particular, with no video-provider credentials set the
gemini, vertex and kieai flags are false while the openai flag reflects
the mandatory credential. -/
theorem healthApis_flags (env : Env) :
    ((healthApis env).openai = true ↔
      ∃ s, env.OPENAI_API_KEY = some s ∧ s ≠ "") ∧
    ((healthApis env).gemini = true ↔
      ∃ s, env.GOOGLE_GEMINI_API_KEY = some s ∧ s ≠ "") ∧
    ((healthApis env).vertex = true ↔
      ∃ s, env.GOOGLE_APPLICATION_CREDENTIALS = some s ∧ s ≠ "") ∧
    ((healthApis env).kieai = true ↔
      ∃ s, env.KIEAI_API_KEY = some s ∧ s ≠ "") := by
  refine ⟨?_, ?_, ?_, ?_⟩
  · cases hv : env.OPENAI_API_KEY with
    | none => simp [healthApis, envTruthy, hv]
    | some s => simp [healthApis, envTruthy, hv]
  · cases hv : env.GOOGLE_GEMINI_API_KEY with
    | none => simp [healthApis, envTruthy, hv]
    | some s => simp [healthApis, envTruthy, hv]
  · cases hv : env.GOOGLE_APPLICATION_CREDENTIALS with
    | none => simp [healthApis, envTruthy, hv]
    | some s => simp [healthApis, envTruthy, hv]
  · cases hv : env.KIEAI_API_KEY with
    | none => simp [healthApis, envTruthy, hv]
    | some s => simp [healthApis, envTruthy, hv]

/-- Witness for the amended C4: the openai flag equivalence at a
concrete environment holding a non-empty credential. -/
theorem healthApis_flags_witness :
    (healthApis envWithKey).openai = true ↔
      ∃ s, envWithKey.OPENAI_API_KEY = some s ∧ s ≠ "" :=
  (healthApis_flags envWithKey).1

/-! ## C5: provider error translation and route status mapping -/

/-- C5 (code bug): generateVideoFromSegment translates HTTP 429 into the
rate-limit message, but the route's status mapping checks for the
lowercase fragment rate limit in a case-sensitive way while the message
begins with a capital letter, so the rate-limit error is mapped back to
HTTP 500 instead of 429.  The auth (401), credits (402) and bad-request
(400) messages do round-trip to their status codes, and the timeout and
network messages fall through to the generic 500. -/
theorem statusCodeFor_rateLimit_bug :
    providerErrorMessage (CallOutcome.httpError 429 none) = msgRateLimit ∧
    statusCodeFor msgRateLimit = 500 ∧
    statusCodeFor (providerErrorMessage (CallOutcome.httpError 401 none)) = 401 ∧
    statusCodeFor (providerErrorMessage (CallOutcome.httpError 402 none)) = 402 ∧
    statusCodeFor (providerErrorMessage (CallOutcome.httpError 400 none)) = 400 ∧
    statusCodeFor (providerErrorMessage CallOutcome.timeout) = 500 ∧
    statusCodeFor (providerErrorMessage CallOutcome.networkError) = 500 := by
  refine ⟨rfl, ?_, ?_, ?_, ?_, ?_, ?_⟩ <;> decide

/-! ## C6: error-handling middleware -/

/-- C6: every error reaching the middleware is answered with a body that
carries the caller-assigned correlation identifier; in development mode
the body's message is the error's own message and the stack is included,
and in every other environment the message is the fixed generic string
and no stack is included. -/
theorem errorMiddleware_response (err : JsError) (errorId : String)
    (nodeEnv : Option String) (req : ReqInfo) :
    (errorMiddleware err errorId nodeEnv req).2.errorId = errorId ∧
    (nodeEnv = some ("development") →
      (errorMiddleware err errorId nodeEnv req).2.message = err.message ∧
      (errorMiddleware err errorId nodeEnv req).2.stack = some err.stack) ∧
    (nodeEnv ≠ some ("development") →
      (errorMiddleware err errorId nodeEnv req).2.message = msgGeneric ∧
      (errorMiddleware err errorId nodeEnv req).2.stack = none) := by
  refine ⟨rfl, ?_, ?_⟩
  · intro h
    simp [errorMiddleware, h]
  · intro h
    simp [errorMiddleware, h]

/-- Witness for C6 at a concrete error, identifier and request, in
development mode and with the environment unset. -/
theorem errorMiddleware_response_witness :
    ((errorMiddleware sampleError sampleErrorId (some ("development")) sampleReq).2.message
        = sampleError.message ∧
      (errorMiddleware sampleError sampleErrorId (some ("development")) sampleReq).2.stack
        = some sampleError.stack) ∧
    ((errorMiddleware sampleError sampleErrorId none sampleReq).2.message = msgGeneric ∧
      (errorMiddleware sampleError sampleErrorId none sampleReq).2.stack = none) ∧
    (errorMiddleware sampleError sampleErrorId none sampleReq).2.errorId = sampleErrorId :=
  ⟨(errorMiddleware_response sampleError sampleErrorId (some ("development")) sampleReq).2.1 rfl,
   (errorMiddleware_response sampleError sampleErrorId none sampleReq).2.2 (by simp),
   (errorMiddleware_response sampleError sampleErrorId none sampleReq).1⟩

/-! ## C7: script validation before provider calls -/

/-- C7 (modelled from the spec, the generate route source being absent):
every script shorter than 50 characters is rejected with a
ValidationError and zero provider calls are issued. -/
theorem runSegmentPipeline_short_script (script : String)
    (h : script.length < 50) :
    (runSegmentPipeline script).1 = Except.error ("ValidationError") ∧
    (runSegmentPipeline script).2 = 0 := by
  unfold runSegmentPipeline
  rw [if_pos h]
  exact ⟨rfl, rfl⟩

/-- Witness for C7 at a concrete 21-character script. -/
theorem runSegmentPipeline_short_script_witness :
    (runSegmentPipeline shortScript).1 = Except.error ("ValidationError") ∧
    (runSegmentPipeline shortScript).2 = 0 :=
  runSegmentPipeline_short_script shortScript (by decide)

/-! ## Indexed-list helper lemmas -/

theorem idxFrom_length : ∀ (l : List α) (n : Nat), (idxFrom n l).length = l.length := by
  intro l
  induction l with
  | nil => intro n; rfl
  | cons a as ih => intro n; simp [idxFrom, ih]

theorem idxFrom_getElem? : ∀ (l : List α) (n k : Nat),
    (idxFrom n l)[k]? = l[k]?.map (fun a => (n + k, a)) := by
  intro l
  induction l with
  | nil => intro n k; simp [idxFrom]
  | cons a as ih =>
    intro n k
    cases k with
    | zero => simp [idxFrom]
    | succ k2 =>
      have harith : n + 1 + k2 = n + (k2 + 1) := by omega
      simp only [idxFrom, List.getElem?_cons_succ, ih (n + 1) k2, harith]

theorem idxFrom_append : ∀ (l₁ l₂ : List α) (n : Nat),
    idxFrom n (l₁ ++ l₂) = idxFrom n l₁ ++ idxFrom (n + l₁.length) l₂ := by
  intro l₁
  induction l₁ with
  | nil => intro l₂ n; simp [idxFrom]
  | cons a as ih =>
    intro l₂ n
    have harith : n + 1 + as.length = n + (as.length + 1) := by omega
    simp only [List.cons_append, idxFrom, List.append_eq, ih, List.length_cons, harith]

theorem idxFrom_mem_bounds : ∀ (l : List α) (n : Nat) (p : Nat × α),
    p ∈ idxFrom n l → n ≤ p.1 ∧ p.1 < n + l.length := by
  intro l
  induction l with
  | nil => intro n p h; simp [idxFrom] at h
  | cons a as ih =>
    intro n p h
    simp only [idxFrom, List.mem_cons] at h
    cases h with
    | inl h =>
      subst h
      refine ⟨Nat.le_refl n, ?_⟩
      show n < n + (as.length + 1)
      omega
    | inr h =>
      have hb := ih (n + 1) p h
      refine ⟨by omega, ?_⟩
      show p.1 < n + (as.length + 1)
      omega

theorem length_filter_add_length_filter_not (l : List α) (p : α → Bool) :
    (l.filter p).length + (l.filter (fun a => !(p a))).length = l.length := by
  induction l with
  | nil => rfl
  | cons a as ih =>
    cases hp : p a <;> simp [List.filter_cons, hp] <;> omega

theorem length_filterMap_eq_length_filter (l : List α) (f : α → Option β) :
    (l.filterMap f).length = (l.filter (fun a => (f a).isSome)).length := by
  induction l with
  | nil => rfl
  | cons a as ih =>
    cases hf : f a <;> simp [List.filterMap_cons, List.filter_cons, hf, ih]

theorem sum_map_const (l : List α) (g : α → ℚ) (c : ℚ)
    (h : ∀ x ∈ l, g x = c) : (l.map g).sum = (l.length : ℚ) * c := by
  induction l with
  | nil => simp
  | cons a as ih =>
    have hrest := ih (fun x hx => h x (by simp [hx]))
    simp only [List.map_cons, List.sum_cons, h a (by simp), hrest, List.length_cons]
    push_cast
    ring

theorem roundCents_eq_self (q : ℚ) (n : ℤ) (h : q * 100 = (n : ℚ)) :
    roundCents q = q := by
  have hfl : ⌊(1 / 2 : ℚ)⌋ = 0 := by
    rw [Int.floor_eq_zero_iff]
    constructor <;> norm_num
  have hq : q = (n : ℚ) / 100 := by
    field_simp at h ⊢
    linarith
  unfold roundCents mathRound
  rw [h, Int.floor_int_add, hfl]
  simpa using hq.symm

theorem drop_eq_get_cons : ∀ (l : List α) (n : Nat) (h : n < l.length),
    l.drop n = l.get ⟨n, h⟩ :: l.drop (n + 1) := by
  intro l
  induction l with
  | nil => intro n h; simp at h
  | cons a as ih =>
    intro n h
    cases n with
    | zero => rfl
    | succ k => exact ih k (by simpa using h)

/-! ## Per-segment call lemmas -/

theorem generateVideoFromSegment_ok (segment : Segment) (options : FalOptions)
    (outcome : CallOutcome) (r : VideoResult)
    (h : generateVideoFromSegment segment options outcome = Except.ok r) :
    r.success = true ∧
    r.cost = some (calculateCost (effectiveDuration options) (effectiveAudio options)) := by
  unfold generateVideoFromSegment at h
  cases hp : createVideoPrompt segment options with
  | error m => rw [hp] at h; exact Except.noConfusion h
  | ok prompt =>
    rw [hp] at h
    cases outcome with
    | ok u st rid =>
      injection h with h
      subst h
      exact ⟨rfl, rfl⟩
    | httpError s d => exact Except.noConfusion h
    | timeout => exact Except.noConfusion h
    | networkError => exact Except.noConfusion h
    | jsError msg => exact Except.noConfusion h

theorem perSegmentResult_success (options : FalOptions) (oracle : Nat → CallOutcome)
    (i : Nat) (segment : Segment) :
    (perSegmentResult options oracle i segment).success = callOk options oracle i segment := by
  unfold perSegmentResult callOk
  cases hcall : generateVideoFromSegment segment options (oracle i) with
  | ok r => exact (generateVideoFromSegment_ok segment options (oracle i) r hcall).1
  | error m => rfl

theorem perSegmentResult_cost (options : FalOptions) (oracle : Nat → CallOutcome)
    (i : Nat) (segment : Segment) (h : callOk options oracle i segment = true) :
    (perSegmentResult options oracle i segment).cost =
      some (calculateCost (effectiveDuration options) (effectiveAudio options)) := by
  unfold callOk at h
  unfold perSegmentResult
  cases hcall : generateVideoFromSegment segment options (oracle i) with
  | ok r => exact (generateVideoFromSegment_ok segment options (oracle i) r hcall).2
  | error m => rw [hcall] at h; exact Bool.noConfusion h

theorem errEntryFor_isSome (options : FalOptions) (oracle : Nat → CallOutcome)
    (i : Nat) (segment : Segment) :
    (errEntryFor options oracle i segment).isSome = !(callOk options oracle i segment) := by
  unfold errEntryFor callOk
  cases hcall : generateVideoFromSegment segment options (oracle i) <;> rfl

theorem errEntryFor_eq_some (options : FalOptions) (oracle : Nat → CallOutcome)
    (i : Nat) (segment : Segment) (e : BatchError)
    (h : errEntryFor options oracle i segment = some e) :
    e.segmentIndex = i + 1 := by
  unfold errEntryFor at h
  cases hcall : generateVideoFromSegment segment options (oracle i) with
  | ok r => rw [hcall] at h; exact Option.noConfusion h
  | error m =>
    rw [hcall] at h
    injection h with h
    rw [← h]

theorem jsParseSeconds_pos (d : String) : 0 < jsParseSeconds d := by
  unfold jsParseSeconds
  cases hd : digitsVal d with
  | none => decide
  | some n =>
    show 0 < if n = 0 then 8 else n
    by_cases hn : n = 0
    · rw [if_pos hn]; decide
    · rw [if_neg hn]; omega

theorem calculateCost_pos (d : String) (a : Bool) : 0 < calculateCost d a := by
  unfold calculateCost
  apply mul_pos
  · exact_mod_cast jsParseSeconds_pos d
  · cases a <;> norm_num

/-! ## Batch-loop characterization -/

theorem runFanout_results (options : FalOptions) (oracle : Nat → CallOutcome) :
    ∀ (segs : List Segment) (i : Nat),
    (runFanout options oracle i segs).results =
      (idxFrom i segs).map (fun p => perSegmentResult options oracle p.1 p.2) := by
  intro segs
  induction segs with
  | nil => intro i; rfl
  | cons s rest ih =>
    intro i
    cases hcall : generateVideoFromSegment s options (oracle i) with
    | ok r => simp [runFanout, idxFrom, hcall, perSegmentResult, ih]
    | error m => simp [runFanout, idxFrom, hcall, perSegmentResult, ih]

theorem runFanout_errors (options : FalOptions) (oracle : Nat → CallOutcome) :
    ∀ (segs : List Segment) (i : Nat),
    (runFanout options oracle i segs).errors =
      (idxFrom i segs).filterMap (fun p => errEntryFor options oracle p.1 p.2) := by
  intro segs
  induction segs with
  | nil => intro i; rfl
  | cons s rest ih =>
    intro i
    cases hcall : generateVideoFromSegment s options (oracle i) with
    | ok r => simp [runFanout, idxFrom, List.filterMap_cons, hcall, errEntryFor, ih]
    | error m => simp [runFanout, idxFrom, List.filterMap_cons, hcall, errEntryFor, ih]

theorem runFanout_events (options : FalOptions) (oracle : Nat → CallOutcome) :
    ∀ (segs : List Segment) (i : Nat),
    (runFanout options oracle i segs).events = fanoutSchedule options oracle i segs := by
  intro segs
  induction segs with
  | nil => intro i; rfl
  | cons s rest ih =>
    intro i
    have hok : callOk options oracle i s =
        match generateVideoFromSegment s options (oracle i) with
        | Except.ok _ => true
        | Except.error _ => false := rfl
    cases hcall : generateVideoFromSegment s options (oracle i) with
    | ok r =>
      cases hrest : rest.isEmpty <;>
        simp [runFanout, fanoutSchedule, hcall, hrest, ih, callOk]
    | error m =>
      simp [runFanout, fanoutSchedule, hcall, ih, callOk]

/-- C9: the batch result has exactly one video entry per input segment,
in input order (entry j is determined by segment j alone), totalSegments
equals the input length, and the top-level success flag is true exactly
when at least one per-segment call succeeded. -/
theorem generateVideosForAllSegments_shape (segments : List Segment)
    (options : FalOptions) (oracle : Nat → CallOutcome) :
    (generateVideosForAllSegments segments options oracle).videos =
      (idxFrom 0 segments).map (fun p => perSegmentResult options oracle p.1 p.2) ∧
    (generateVideosForAllSegments segments options oracle).videos.length = segments.length ∧
    (generateVideosForAllSegments segments options oracle).totalSegments = segments.length ∧
    ((generateVideosForAllSegments segments options oracle).success = true ↔
      ∃ p ∈ idxFrom 0 segments, callOk options oracle p.1 p.2 = true) := by
  have hres := runFanout_results options oracle segments 0
  refine ⟨hres, ?_, rfl, ?_⟩
  · show (runFanout options oracle 0 segments).results.length = segments.length
    rw [hres, List.length_map, idxFrom_length]
  · show decide (0 < ((runFanout options oracle 0 segments).results.filter
        (fun r => r.success)).length) = true ↔ _
    rw [decide_eq_true_eq, hres, List.filter_map, List.length_map,
      List.length_pos_iff_exists_mem]
    constructor
    · rintro ⟨p, hp⟩
      rw [List.mem_filter] at hp
      refine ⟨p, hp.1, ?_⟩
      have := hp.2
      simpa [Function.comp, perSegmentResult_success] using this
    · rintro ⟨p, hp, hc⟩
      refine ⟨p, List.mem_filter.mpr ⟨hp, ?_⟩⟩
      simpa [Function.comp, perSegmentResult_success] using hc

/-- C1: when exactly M of the N per-segment generations fail, the batch
result reports successCount = N - M and failureCount = M, and totalCost
is the sum over the N - M successful calls of the per-second rate (0.40
dollars with audio, 0.20 dollars without) times the requested duration
in seconds; all calls of one batch share the same requested duration and
audio flag, so the sum is the count times the per-call cost. -/
theorem generateVideosForAllSegments_counts (segments : List Segment)
    (options : FalOptions) (oracle : Nat → CallOutcome) (M : Nat)
    (hM : ((idxFrom 0 segments).filter
        (fun p => !(callOk options oracle p.1 p.2))).length = M) :
    (generateVideosForAllSegments segments options oracle).successCount
        = segments.length - M ∧
    (generateVideosForAllSegments segments options oracle).failureCount = M ∧
    (generateVideosForAllSegments segments options oracle).totalCost =
      ((segments.length - M : Nat) : ℚ) *
        ((if effectiveAudio options then (0.40 : ℚ) else (0.20 : ℚ)) *
          (jsParseSeconds (effectiveDuration options) : ℚ)) := by
  have hres := runFanout_results options oracle segments 0
  have hsucc : (generateVideosForAllSegments segments options oracle).successCount =
      ((idxFrom 0 segments).filter (fun p => callOk options oracle p.1 p.2)).length := by
    show ((runFanout options oracle 0 segments).results.filter
        (fun r => r.success)).length = _
    rw [hres, List.filter_map, List.length_map]
    congr 1
    apply List.filter_congr
    intro p _
    simp [Function.comp, perSegmentResult_success]
  have htotal : ((idxFrom 0 segments).filter
        (fun p => callOk options oracle p.1 p.2)).length + M = segments.length := by
    rw [← hM, length_filter_add_length_filter_not, idxFrom_length]
  refine ⟨?_, ?_, ?_⟩
  · rw [hsucc]; omega
  · show (runFanout options oracle 0 segments).errors.length = M
    rw [runFanout_errors, length_filterMap_eq_length_filter, ← hM]
    congr 1
    apply List.filter_congr
    intro p _
    simp [errEntryFor_isSome]
  · have hcost0 : 0 < calculateCost (effectiveDuration options) (effectiveAudio options) :=
      calculateCost_pos _ _
    have hfiltereq : (runFanout options oracle 0 segments).results.filter
          (fun r => r.success &&
            (match r.cost with
             | some c => decide (c ≠ 0)
             | none => false)) =
        (runFanout options oracle 0 segments).results.filter (fun r => r.success) := by
      apply List.filter_congr
      intro x hx
      rw [hres] at hx
      obtain ⟨pr, hpr, rfl⟩ := List.mem_map.mp hx
      by_cases hc : callOk options oracle pr.1 pr.2 = true
      · have hs := perSegmentResult_success options oracle pr.1 pr.2
        rw [hc] at hs
        have hcost := perSegmentResult_cost options oracle pr.1 pr.2 hc
        rw [hs, hcost]
        simp [ne_of_gt hcost0]
      · have hs := perSegmentResult_success options oracle pr.1 pr.2
        rw [Bool.not_eq_true] at hc
        rw [hc] at hs
        rw [hs]
        rfl
    have hconst : ∀ x ∈ (runFanout options oracle 0 segments).results.filter
          (fun r => r.success),
        x.cost.getD 0 = calculateCost (effectiveDuration options) (effectiveAudio options) := by
      intro x hx
      rw [List.mem_filter] at hx
      obtain ⟨hxm, hxs⟩ := hx
      rw [hres] at hxm
      obtain ⟨pr, hpr, rfl⟩ := List.mem_map.mp hxm
      have hc : callOk options oracle pr.1 pr.2 = true := by
        rw [← perSegmentResult_success options oracle pr.1 pr.2]
        exact hxs
      rw [perSegmentResult_cost options oracle pr.1 pr.2 hc]
      rfl
    show roundCents _ = _
    rw [hfiltereq, sum_map_const _ _ _ hconst]
    have hlen : (((runFanout options oracle 0 segments).results.filter
        (fun r => r.success)).length : ℚ) = ((segments.length - M : Nat) : ℚ) := by
      have := hsucc
      show ((generateVideosForAllSegments segments options oracle).successCount : ℚ) = _
      rw [hsucc]
      congr 1
      omega
    rw [hlen]
    set K : Nat := segments.length - M with hK
    have hround : roundCents ((K : ℚ) *
        calculateCost (effectiveDuration options) (effectiveAudio options)) =
        (K : ℚ) * calculateCost (effectiveDuration options) (effectiveAudio options) := by
      apply roundCents_eq_self _
        ((K : ℤ) * (jsParseSeconds (effectiveDuration options) : ℤ) *
          (if effectiveAudio options then 40 else 20))
      unfold calculateCost
      cases hA : effectiveAudio options <;> push_cast <;> norm_num <;> ring
    rw [hround]
    unfold calculateCost
    ring

set_option maxRecDepth 8000 in
/-- Witness for C1: two default segments, the first provider call
failing with HTTP 429, so N = 2 and M = 1. -/
theorem generateVideosForAllSegments_counts_witness :
    (generateVideosForAllSegments c1Segments noOptions oracleFirst429).successCount
        = c1Segments.length - 1 ∧
    (generateVideosForAllSegments c1Segments noOptions oracleFirst429).failureCount = 1 ∧
    (generateVideosForAllSegments c1Segments noOptions oracleFirst429).totalCost =
      ((c1Segments.length - 1 : Nat) : ℚ) *
        ((if effectiveAudio noOptions then (0.40 : ℚ) else (0.20 : ℚ)) *
          (jsParseSeconds (effectiveDuration noOptions) : ℚ)) :=
  generateVideosForAllSegments_counts c1Segments noOptions oracleFirst429 1 (by decide)

/-! ## C8: call schedule of the fan-out -/

theorem fanoutSchedule_calls (options : FalOptions) (oracle : Nat → CallOutcome) :
    ∀ (segs : List Segment) (n : Nat),
    (fanoutSchedule options oracle n segs).filterMap callIdx =
      (idxFrom n segs).filterMap
        (fun p => if promptOk p.2 options then some p.1 else none) := by
  intro segs
  induction segs with
  | nil => intro n; rfl
  | cons s rest ih =>
    intro n
    cases hp : promptOk s options <;>
      cases hc : (callOk options oracle n s && !rest.isEmpty) <;>
        simp [fanoutSchedule, idxFrom, List.filterMap_append, List.filterMap_cons,
          hp, hc, callIdx, ih]

/-- C8 amended: the fan-out's observable behaviour equals the sequential
schedule: for each segment in order, at most one provider call — exactly
one when its prompt construction succeeds — and a fixed 1000 ms delay
after a successful non-final call, while a failed call is followed by
the next call with no intervening delay; consequently the issued call
indices are exactly the prompt-constructible segment indices in
ascending segment order. -/
theorem generateVideosTrace_schedule (segments : List Segment)
    (options : FalOptions) (oracle : Nat → CallOutcome) :
    generateVideosTrace segments options oracle = fanoutSchedule options oracle 0 segments ∧
    (generateVideosTrace segments options oracle).filterMap callIdx =
      (idxFrom 0 segments).filterMap
        (fun p => if promptOk p.2 options then some p.1 else none) := by
  have h := runFanout_events options oracle segments 0
  refine ⟨h, ?_⟩
  show (runFanout options oracle 0 segments).events.filterMap callIdx = _
  rw [h, fanoutSchedule_calls]

set_option maxRecDepth 8000 in
/-- Counterexample to C8 as stated: with two default segments whose
calls both fail with HTTP 429, the trace is two back-to-back calls with
no delay between them (the inter-call delay is skipped after a
failure); and for a single enhanced-marked segment with a missing
sub-object, no provider call is issued at all. -/
theorem generateVideosTrace_counterexample :
    generateVideosTrace c8Segments noOptions oracleAll429 =
      [Event.call 0, Event.call 1] ∧
    generateVideosTrace [enhancedBrokenSegment] noOptions oracleAll429 = [] := by
  constructor <;> decide

/-! ## C2: a failing call does not abort the batch -/

theorem call_mem_fanoutSchedule (options : FalOptions) (oracle : Nat → CallOutcome) :
    ∀ (segs : List Segment) (n j : Nat),
    Event.call j ∈ fanoutSchedule options oracle n segs ↔
      ∃ k, n + k = j ∧
        ∃ (hk : k < segs.length), promptOk (segs.get ⟨k, hk⟩) options = true := by
  intro segs
  induction segs with
  | nil =>
    intro n j
    simp [fanoutSchedule]
  | cons s rest ih =>
    intro n j
    constructor
    · intro h
      rw [show fanoutSchedule options oracle n (s :: rest) =
          (if promptOk s options then [Event.call n] else []) ++
          ((if callOk options oracle n s && !rest.isEmpty
            then [Event.delay 1000] else []) ++
            fanoutSchedule options oracle (n + 1) rest) by
          simp [fanoutSchedule]] at h
      rw [List.mem_append, List.mem_append] at h
      rcases h with h | h | h
      · cases hp : promptOk s options
        · rw [hp] at h; simp at h
        · rw [hp] at h
          simp only [if_true, List.mem_singleton] at h
          injection h with h
          refine ⟨0, by omega, by simp, ?_⟩
          show promptOk s options = true
          exact hp
      · cases hc : (callOk options oracle n s && !rest.isEmpty) <;>
          rw [hc] at h <;> simp at h
      · obtain ⟨k, hk1, hk2, hk3⟩ := (ih (n + 1) j).mp h
        refine ⟨k + 1, by omega, by simpa using Nat.succ_lt_succ hk2, ?_⟩
        show promptOk (rest.get ⟨k, hk2⟩) options = true
        exact hk3
    · rintro ⟨k, hnk, hk, hpk⟩
      rw [show fanoutSchedule options oracle n (s :: rest) =
          (if promptOk s options then [Event.call n] else []) ++
          ((if callOk options oracle n s && !rest.isEmpty
            then [Event.delay 1000] else []) ++
            fanoutSchedule options oracle (n + 1) rest) by
          simp [fanoutSchedule]]
      rw [List.mem_append, List.mem_append]
      cases k with
      | zero =>
        left
        have hps : promptOk s options = true := hpk
        rw [hps]
        simp
        omega
      | succ k2 =>
        right; right
        refine (ih (n + 1) j).mpr ⟨k2, by omega, by simpa using hk, ?_⟩
        exact hpk

theorem batch_errors_getD (segments : List Segment) (options : FalOptions)
    (oracle : Nat → CallOutcome) :
    (generateVideosForAllSegments segments options oracle).errors.getD [] =
      (runFanout options oracle 0 segments).errors := by
  show (if 0 < (runFanout options oracle 0 segments).errors.length
      then some ((runFanout options oracle 0 segments).errors)
      else none).getD [] = _
  by_cases h : 0 < (runFanout options oracle 0 segments).errors.length
  · rw [if_pos h]; rfl
  · rw [if_neg h]
    have : (runFanout options oracle 0 segments).errors = [] := by
      rw [← List.length_eq_zero]
      omega
    rw [this]
    rfl

/-- C2: if the per-segment generation for segment i (0-based, so the
spec's 1-based segment i+1) fails with message m, the batch is not
aborted: every later segment's provider call is still issued exactly
when its prompt construction succeeds, the errors array carries exactly
one entry for 1-based index i+1 and it holds the message m, and the
result entry at position i is the failure record with success false and
the same message. -/
theorem fanout_failure_does_not_abort (segments : List Segment)
    (options : FalOptions) (oracle : Nat → CallOutcome) (i : Nat)
    (hi : i < segments.length) (m : String)
    (hfail : generateVideoFromSegment (segments.get ⟨i, hi⟩) options (oracle i) =
      Except.error m) :
    (∀ j (hj : j < segments.length), i < j →
      (Event.call j ∈ generateVideosTrace segments options oracle ↔
        promptOk (segments.get ⟨j, hj⟩) options = true)) ∧
    ((generateVideosForAllSegments segments options oracle).errors.getD []).filter
        (fun e => e.segmentIndex == i + 1) =
      [{ segmentIndex := i + 1, error := m }] ∧
    (generateVideosForAllSegments segments options oracle).videos[i]? =
      some (failResult (segments.get ⟨i, hi⟩) i m) := by
  refine ⟨?_, ?_, ?_⟩
  · intro j hj hij
    rw [show generateVideosTrace segments options oracle =
        fanoutSchedule options oracle 0 segments from
        runFanout_events options oracle segments 0]
    rw [call_mem_fanoutSchedule]
    constructor
    · rintro ⟨k, hk0, hk, hpk⟩
      have : k = j := by omega
      subst this
      exact hpk
    · intro hp
      exact ⟨j, by omega, hj, hp⟩
  · rw [batch_errors_getD, runFanout_errors]
    have hsplit : segments = segments.take i ++
        segments.get ⟨i, hi⟩ :: segments.drop (i + 1) := by
      rw [← drop_eq_get_cons segments i hi, List.take_append_drop]
    have hlen : (segments.take i).length = i :=
      List.length_take_of_le (Nat.le_of_lt hi) |>.trans rfl
    rw [show idxFrom 0 segments = idxFrom 0 (segments.take i) ++
        ((i, segments.get ⟨i, hi⟩) :: idxFrom (i + 1) (segments.drop (i + 1))) by
      conv_lhs => rw [hsplit]
      rw [idxFrom_append, hlen, Nat.zero_add]
      simp only [idxFrom]]
    rw [List.filterMap_append, List.filter_append, List.filterMap_cons]
    have hmid : errEntryFor options oracle i (segments.get ⟨i, hi⟩) =
        some { segmentIndex := i + 1, error := m } := by
      unfold errEntryFor
      rw [hfail]
    rw [hmid]
    have hleft : ((idxFrom 0 (segments.take i)).filterMap
        (fun p => errEntryFor options oracle p.1 p.2)).filter
          (fun e => e.segmentIndex == i + 1) = [] := by
      rw [List.filter_eq_nil]
      intro e he
      obtain ⟨p, hp, hfp⟩ := List.mem_filterMap.mp he
      have hidx := errEntryFor_eq_some options oracle p.1 p.2 e hfp
      have hb := idxFrom_mem_bounds (segments.take i) 0 p hp
      rw [hlen] at hb
      simp only [beq_iff_eq]
      omega
    have hright : ((idxFrom (i + 1) (segments.drop (i + 1))).filterMap
        (fun p => errEntryFor options oracle p.1 p.2)).filter
          (fun e => e.segmentIndex == i + 1) = [] := by
      rw [List.filter_eq_nil]
      intro e he
      obtain ⟨p, hp, hfp⟩ := List.mem_filterMap.mp he
      have hidx := errEntryFor_eq_some options oracle p.1 p.2 e hfp
      have hb := idxFrom_mem_bounds (segments.drop (i + 1)) (i + 1) p hp
      simp only [beq_iff_eq]
      omega
    rw [hleft, List.filter_cons]
    simp only [beq_self_eq_true, if_true]
    rw [hright]
    rfl
  · have hres := runFanout_results options oracle segments 0
    show (runFanout options oracle 0 segments).results[i]? = _
    rw [hres, List.getElem?_map, idxFrom_getElem?,
      List.getElem?_eq_getElem hi]
    show some (perSegmentResult options oracle (0 + i) (segments.get ⟨i, hi⟩)) = _
    rw [show 0 + i = i by omega]
    unfold perSegmentResult
    rw [hfail]

set_option maxRecDepth 8000 in
/-- Witness for C2: three default segments with the second provider call
failing with HTTP 429 (the spec's scenario): the third call's issuance
is equivalent to its prompt construction succeeding, the errors array
holds exactly one entry for 1-based segment 2 with the rate-limit
message, and entry 1 of the videos array is the failure record. -/
theorem fanout_failure_does_not_abort_witness :
    (Event.call 2 ∈ generateVideosTrace c2Segments noOptions oracleSecond429 ↔
      promptOk emptySegment noOptions = true) ∧
    ((generateVideosForAllSegments c2Segments noOptions oracleSecond429).errors.getD
        []).filter (fun e => e.segmentIndex == 2) =
      [{ segmentIndex := 2, error := msgRateLimit }] ∧
    (generateVideosForAllSegments c2Segments noOptions oracleSecond429).videos[1]? =
      some (failResult emptySegment 1 msgRateLimit) :=
  have thm := fanout_failure_does_not_abort c2Segments noOptions oracleSecond429 1
    (by decide) msgRateLimit (by rfl)
  ⟨thm.1 2 (by decide) (by decide), thm.2.1, thm.2.2⟩
